import Mathlib

/-!
Verification of the TTS dispatch library against its specification.

The definitions below are a shallow embedding of the Python sources:
  - `src/libs/tools.py` / `src/libs/tts_lib.py` (validators, config, filenames)
  - `src/libs/api.py` (synthesis pipeline)
  - `src/libs/pyttsx3.py`, `src/libs/playback.py` (temp-file lifecycles)
  - `src/libs/tts_lib.py` legacy pyttsx3 adapters
  - `src/engines/silerotts.py`, `src/engines/pipertts.py`,
    `src/engines/coquitts.py` (language to model resolution)
  - `src/cli.py` (output-filename and playback resolution)

Side-effecting parts (filesystem, backend engines, the clock) are made
explicit: the filesystem is a pair of predicates, backend behaviour is an
oracle parameter, and `datetime.now()` is an explicit `DateTime` argument.
-/

set_option autoImplicit false

namespace TTS

/-- Modelled from the spec: `libs/exceptions.py` is not present under `src/`;
section 7 of the spec gives the error taxonomy (`ValidationError`,
`EngineNotAvailableError`, base `TTSException`), matching the classes the
source files import and raise. -/
inductive TTSError where
  | validationError (msg : String)
  | engineNotAvailableError (msg : String)
  | ttsException (msg : String)
  deriving Repr, DecidableEq

/-- The message carried by an error, as Python `str(e)` would render it. -/
def TTSError.message : TTSError → String
  | .validationError m => m
  | .engineNotAvailableError m => m
  | .ttsException m => m

instance {ε α : Type} [DecidableEq ε] [DecidableEq α] : DecidableEq (Except ε α) :=
  fun a b =>
    match a, b with
    | .ok x, .ok y =>
      if h : x = y then .isTrue (by rw [h]) else .isFalse (by intro hc; cases hc; exact h rfl)
    | .error x, .error y =>
      if h : x = y then .isTrue (by rw [h]) else .isFalse (by intro hc; cases hc; exact h rfl)
    | .ok _, .error _ => .isFalse (by intro hc; cases hc)
    | .error _, .ok _ => .isFalse (by intro hc; cases hc)

/-- Python `str.strip()`: drop whitespace from both ends. -/
def pyStrip (s : String) : String :=
  String.mk (((s.data.dropWhile Char.isWhitespace).reverse.dropWhile Char.isWhitespace).reverse)

/-- Python `str.lower()`: lowercase every character. -/
def pyLower (s : String) : String :=
  String.mk (s.data.map Char.toLower)

/-- Model of `tools.validate_text` (identical in `tts_lib.validate_text`): strip,
reject blank, reject length > 5000, otherwise return the stripped text. -/
def validate_text (text : String) : Except TTSError String :=
  let cleaned_text := pyStrip text
  if cleaned_text = "" then
    .error (.validationError "Text cannot be empty")
  else if cleaned_text.length > 5000 then
    .error (.validationError "Text too long (max 5000 characters)")
  else
    .ok cleaned_text

/-- Module-level availability flags (`pyttsx3.is_available()`,
`gtts.is_available()`), set at import time in the source. -/
structure EngineAvailability where
  pyttsx3 : Bool
  gtts : Bool
  deriving Repr, DecidableEq

/-- Model of `tools.validate_engine`: unknown ids fail `ValidationError`; known but
unavailable engines fail `EngineNotAvailableError`. -/
def validate_engine (avail : EngineAvailability) (engine : String) : Except TTSError String :=
  if engine ≠ "pyttsx3" ∧ engine ≠ "gtts" then
    .error (.validationError "Engine must be pyttsx3 or gtts")
  else if engine = "pyttsx3" ∧ avail.pyttsx3 = false then
    .error (.engineNotAvailableError "pyttsx3 engine not available")
  else if engine = "gtts" ∧ avail.gtts = false then
    .error (.engineNotAvailableError "gTTS engine not available")
  else
    .ok engine

/-- Model of `tools.validate_language`: any 2-character string is accepted and
lowercased; everything else fails `ValidationError`. -/
def validate_language (language : String) : Except TTSError String :=
  if language.length ≠ 2 then
    .error (.validationError "Language must be a 2-character code")
  else
    .ok (pyLower language)

/-- Configuration dictionary (`tools.get_default_config`). Volume is an exact
rational standing for the Python float `0.9`. -/
structure Config where
  engine : String
  language : String
  rate : Nat
  volume : ℚ
  slow : Bool
  deriving Repr, DecidableEq

/-- Model of `tools.get_default_config`. -/
def get_default_config : Config :=
  { engine := "gtts", language := "en", rate := 150, volume := 9 / 10, slow := false }

/-- Behaviour of one call to an adapter's bytes function: either the backend
raises, or it produces a byte string. -/
inductive BytesOutcome where
  | throws (e : TTSError)
  | produces (bs : List Nat)
  deriving Repr, DecidableEq

/-- Oracle for the two registered adapters' `to_bytes` entries of
`tools.get_engine_function`. -/
structure AdapterBehavior where
  pyttsx3Bytes : String → Config → BytesOutcome
  gttsBytes : String → Config → BytesOutcome

/-- Model of `api.text_to_speech_bytes`, instrumented with the list of adapter
functions invoked (in call order). The source calls the adapter exactly once,
after all three validators have succeeded. -/
def text_to_speech_bytesTraced (avail : EngineAvailability) (adapters : AdapterBehavior)
    (text engine language : String) : Except TTSError (List Nat) × List String :=
  match validate_text text with
  | .error e => (.error e, [])
  | .ok validated_text =>
    match validate_engine avail engine with
    | .error e => (.error e, [])
    | .ok validated_engine =>
      match validate_language language with
      | .error e => (.error e, [])
      | .ok validated_language =>
        let config :=
          { get_default_config with engine := validated_engine, language := validated_language }
        if validated_engine = "pyttsx3" then
          match adapters.pyttsx3Bytes validated_text config with
          | .throws e => (.error e, ["pyttsx3.to_bytes"])
          | .produces bs => (.ok bs, ["pyttsx3.to_bytes"])
        else
          match adapters.gttsBytes validated_text config with
          | .throws e => (.error e, ["gtts.to_bytes"])
          | .produces bs => (.ok bs, ["gtts.to_bytes"])

/-- Model of `api.text_to_speech_bytes`: the result component of the traced pipeline. -/
def text_to_speech_bytes (avail : EngineAvailability) (adapters : AdapterBehavior)
    (text engine language : String) : Except TTSError (List Nat) :=
  (text_to_speech_bytesTraced avail adapters text engine language).1

/-- An adapter oracle used to instantiate witnesses on concrete inputs. -/
def constAdapters : AdapterBehavior :=
  { pyttsx3Bytes := fun _ _ => .produces [1, 2, 3],
    gttsBytes := fun _ _ => .produces [1, 2, 3] }

/-! ### Timestamps and filenames (`tools.generate_timestamp_filename`) -/

/-- The wall-clock instant `datetime.now()` returns, made an explicit input. -/
structure DateTime where
  year : Nat
  month : Nat
  day : Nat
  hour : Nat
  minute : Nat
  second : Nat
  deriving Repr, DecidableEq

/-- Decimal digits of `n`, most significant first (the digits Python would
print for the corresponding `strftime` field). -/
def natDecimal (n : Nat) : List Char :=
  if h : n < 10 then
    [Char.ofNat (48 + n)]
  else
    natDecimal (n / 10) ++ [Char.ofNat (48 + n % 10)]
  decreasing_by exact Nat.div_lt_self (by omega) (by omega)

/-- Left-pad a digit string with zeros to width `w`, as `strftime`'s
zero-padded numeric directives do. -/
def zfill (w : Nat) (l : List Char) : List Char :=
  List.replicate (w - l.length) '0' ++ l

/-- One zero-padded numeric `strftime` field of width `w`. -/
def strfField (w n : Nat) : List Char :=
  zfill w (natDecimal n)

/-- Model of `datetime.strftime("%Y%m%d_%H%M%S")`: the timestamp core used by every
generated filename. -/
def strftimeYmdHMS (t : DateTime) : String :=
  String.mk (strfField 4 t.year ++ strfField 2 t.month ++ strfField 2 t.day
    ++ ['_'] ++ strfField 2 t.hour ++ strfField 2 t.minute ++ strfField 2 t.second)

/-- Model of `tools.generate_timestamp_filename` (identical in `tts_lib`): Python's
`if prefix:` is the nonemptiness test on the prefix string. -/
def generate_timestamp_filename (now : DateTime) (pfx ext : String) : String :=
  let timestamp := strftimeYmdHMS now
  if pfx ≠ "" then
    pfx ++ "_" ++ timestamp ++ "." ++ ext
  else
    timestamp ++ "." ++ ext

/-- The shape `YYYYMMDD_HHMMSS`: eight digits, an underscore, six digits. -/
def timestampPattern (s : String) : Prop :=
  ∃ A B, s.data = A ++ '_' :: B ∧ A.length = 8 ∧ B.length = 6
    ∧ (∀ c ∈ A, c.isDigit = true) ∧ (∀ c ∈ B, c.isDigit = true)

/-- Extension choice for an auto-generated filename in
`api.text_to_speech_file` (line 80). -/
def apiDefaultExtension (engine : String) : String :=
  if engine = "pyttsx3" then "wav" else "mp3"

/-- Extension choice in `cli.determine_output_filename` (line 318). -/
def cliDefaultExtension (engine : String) : String :=
  if engine = "gtts" then "mp3" else "wav"

/-! ### CLI sink resolution (`cli.determine_output_filename`,
`cli.determine_playback_setting`) -/

/-- The parsed CLI arguments the two resolution functions read.
`file = some ""` is `--file` given without a value (argparse `const=''`);
`file = none` is `--file` absent. -/
structure CliArgs where
  file : Option String
  play : Bool
  audio_dir : Option String
  deriving Repr, DecidableEq

/-- The configuration keys of `cli.load_env_config` that sink resolution
reads. -/
structure CliConfig where
  audio_directory : String
  deriving Repr, DecidableEq

/-- Read-only view of the filesystem at the moment of the call. -/
structure FileSystem where
  pathExists : String → Bool
  isDir : String → Bool

/-- A filesystem on which nothing exists, for concrete instantiations. -/
def emptyFS : FileSystem :=
  { pathExists := fun _ => false, isDir := fun _ => false }

/-- Python `str.endswith`. -/
def pyEndsWith (s suffix : String) : Bool :=
  List.isSuffixOf suffix.data s.data

/-- Model of `os.path.join` restricted to the call shapes of the source (the second
component is never absolute). -/
def os_path_join (a b : String) : String :=
  if a = "" then b
  else if pyEndsWith a "/" then a ++ b
  else a ++ "/" ++ b

/-- The characters strictly before the last `'/'` of the list, or `none`
when no `'/'` occurs. -/
def beforeLastSlash : List Char → Option (List Char)
  | [] => none
  | c :: rest =>
    match beforeLastSlash rest with
    | some r => some (c :: r)
    | none => if c = '/' then some [] else none

/-- Model of `pathlib.Path(f).parent` rendered as a string, for the slash-separated
paths the CLI passes it: everything before the last separator, `"."` when
there is none, `"/"` for a root child. -/
def pathParent (f : String) : String :=
  match beforeLastSlash f.data with
  | none => "."
  | some [] => "/"
  | some l => String.mk l

/-- The audio directory `cli.determine_output_filename` resolves for an
empty `--file` target: `args.audio_dir or config['audio_directory']`
(Python `or`, so `None` and the empty string both fall back). -/
def resolvedAudioDir (args : CliArgs) (config : CliConfig) : String :=
  match args.audio_dir with
  | some d => if d ≠ "" then d else config.audio_directory
  | none => config.audio_directory

/-- Model of `cli.determine_playback_setting`. -/
def determine_playback_setting (args : CliArgs) : Bool :=
  if args.play then true
  else if args.file = none then true
  else false

/-- Model of `cli.determine_output_filename`, returning the resolved output path (or
`none` for play-only mode) together with the list of directories the call
ensures exist (`ensure_audio_directory` calls, in order). -/
def determine_output_filename (args : CliArgs) (config : CliConfig) (engine : String)
    (fs : FileSystem) (now : DateTime) : Option String × List String :=
  match args.file with
  | none => (none, [])
  | some f =>
    let extension := cliDefaultExtension engine
    if f = "" then
      let audio_dir := resolvedAudioDir args config
      let timestamp_filename := generate_timestamp_filename now "" extension
      (some (os_path_join audio_dir timestamp_filename), [audio_dir])
    else if pyEndsWith f "/" || (fs.pathExists f && fs.isDir f) then
      let timestamp_filename := generate_timestamp_filename now "" extension
      (some (os_path_join f timestamp_filename), [f])
    else if pathParent f ≠ "." then
      (some f, [pathParent f])
    else
      (some f, [])

/-! ### Neural-engine model resolution (`src/engines/`) -/

/-- From `silerotts.get_model_info`: the `language_models` dictionary, as an
association list in source order. Entries are `(model_id, speaker,
sample_rate)`. -/
def silero_language_models : List (String × String × String × Nat) :=
  [("ru", "v3_1_ru", "aidar", 48000),
   ("en", "v3_en", "en_0", 48000),
   ("de", "v3_de", "bernd_ungerer", 48000),
   ("es", "v3_es", "es_0", 48000),
   ("fr", "v3_fr", "fr_0", 48000),
   ("ua", "v3_ua", "mykyta", 48000),
   ("uk", "v3_ua", "mykyta", 48000)]

/-- Model of `silerotts.get_model_info`: `language_models.get(language,
language_models['en'])`; the default is the table's `"en"` entry. -/
def get_model_info (language : String) : String × String × Nat :=
  (silero_language_models.lookup language).getD ("v3_en", "en_0", 48000)

/-- From `pipertts.get_voice_path`: the `voice_models` dictionary. -/
def piper_voice_models : List (String × String) :=
  [("en", "en_US-lessac-medium"),
   ("ru", "ru_RU-ruslan-medium"),
   ("es", "es_ES-davefx-medium"),
   ("de", "de_DE-thorsten-medium"),
   ("fr", "fr_FR-siwis-medium"),
   ("it", "it_IT-riccardo-medium"),
   ("uk", "uk_UA-ukrainian_tts-medium"),
   ("zh", "zh_CN-huayan-medium")]

/-- The voice name `pipertts.get_voice_path` resolves before probing
directories: `voice_models.get(language, voice_models['en'])`. -/
def piper_voice_name (language : String) : String :=
  (piper_voice_models.lookup language).getD "en_US-lessac-medium"

/-- Model of `pipertts.get_voice_path`: probe the candidate directories in order and
return the first existing `<voice_name>.onnx`, defaulting to the project
directory. `projectDir` stands for `Path(__file__).parent.parent`, `homeDir`
for `Path.home()`. -/
def get_voice_path (fs : FileSystem) (projectDir homeDir : String) (language : String) : String :=
  let voice_name := piper_voice_name language
  let voice_dirs :=
    [projectDir ++ "/.pipertts/voices",
     homeDir ++ "/.local/share/piper/voices",
     "/usr/share/piper/voices",
     "./voices"]
  match voice_dirs.find? (fun d => fs.pathExists (d ++ "/" ++ voice_name ++ ".onnx")) with
  | some d => d ++ "/" ++ voice_name ++ ".onnx"
  | none => projectDir ++ "/.pipertts/voices" ++ "/" ++ voice_name ++ ".onnx"

/-- From `coquitts.get_model_name`: the multilingual fallback model. -/
def coqui_multilingual_model : String :=
  "tts_models/multilingual/multi-dataset/xtts_v2"

/-- From `coquitts.get_model_name`: the `language_models` dictionary. -/
def coqui_language_models : List (String × String) :=
  [("en", "tts_models/en/ljspeech/tacotron2-DDC"),
   ("es", "tts_models/es/mai/tacotron2-DDC"),
   ("fr", "tts_models/fr/mai/tacotron2-DDC"),
   ("de", "tts_models/de/thorsten/tacotron2-DDC")]

/-- Model of `coquitts.get_model_name`: listed CJK/Cyrillic/etc. codes go straight to
the multilingual model; otherwise the language-specific model if mapped,
multilingual if not. -/
def get_model_name (language : String) : String :=
  if language ∈ ["ru", "uk", "zh", "ja", "ko", "ar", "hi"] then
    coqui_multilingual_model
  else
    (coqui_language_models.lookup language).getD coqui_multilingual_model

/-! ### Temp-file lifecycles (`libs/pyttsx3.py`, `libs/playback.py`,
legacy `tts_lib.py` adapters)

One synthesis/playback call is modelled as a function of the backend's
behaviour on that call.  The `temp` field records whether the temporary
file is still on disk when the call returns or raises. -/

/-- What the backend run (`save_to_file` + `runAndWait` + `stop`, or the
mixer load/play) does to the exclusively-owned temp file:
either it raises, or it finishes leaving the file missing (`writes none`),
or present with the given content (`writes (some content)`). -/
inductive BackendRun where
  | throws (e : TTSError)
  | writes (content : Option (List Nat))
  deriving Repr, DecidableEq

/-- Result of one call: the returned value or raised error, plus whether the
temporary file is still on disk afterwards. -/
structure ExecResult (α : Type) where
  result : Except TTSError α
  temp : Bool
  deriving Repr, DecidableEq

/-- The cleanup idiom `if os.path.exists(temp_filename): os.unlink(...)`,
applied to the temp-file-exists state. -/
def unlinkIfExists (st : Bool) : Bool :=
  if st then false else st

/-- The temp-file-exists state the backend run leaves behind, starting from a
freshly created temp file: a raise or an empty write leave the file in place;
`writes none` means the file is gone after the run. -/
def stateAfterRun (run : BackendRun) : Bool :=
  match run with
  | .throws _ => true
  | .writes none => false
  | .writes (some _) => true

/-- Model of `libs/pyttsx3.to_bytes`.  `avail` is the import-time flag consulted by
`init_engine`; `run` is the backend's behaviour on the temp file created by
`NamedTemporaryFile(delete=False)`.  The `try` body either returns the bytes
read back or raises (a wrapped backend error, or the empty/missing
verification failure); the `finally` block then unlinks the temp file if it
still exists. -/
def pyttsx3_to_bytes (avail : Bool) (run : BackendRun) : ExecResult (List Nat) :=
  if avail = false then
    { result := .error (.engineNotAvailableError "pyttsx3 not available"), temp := false }
  else
    let body : Except TTSError (List Nat) :=
      match run with
      | .throws e =>
        .error (.ttsException ("pyttsx3 bytes generation failed: " ++ e.message))
      | .writes none =>
        .error (.ttsException ("pyttsx3 bytes generation failed: "
          ++ "pyttsx3 failed to generate audio file - file is empty or missing"))
      | .writes (some content) =>
        if content = [] then
          .error (.ttsException ("pyttsx3 bytes generation failed: "
            ++ "pyttsx3 failed to generate audio file - file is empty or missing"))
        else
          .ok content
    { result := body, temp := unlinkIfExists (stateAfterRun run) }

/-- Result of `libs/pyttsx3.to_file`: as `ExecResult`, plus the content left
at the target path by the `os.rename`, when any. -/
structure FileExecResult where
  result : Except TTSError String
  temp : Bool
  written : Option (List Nat)
  deriving Repr, DecidableEq

/-- Model of `libs/pyttsx3.to_file`: verify the temp file is present and non-empty,
then `os.rename` it onto `filename` (which removes the temp path); any raise
inside the `try` is caught by the `except` clause, which unlinks the temp
file if it still exists and raises a wrapped `TTSException`. -/
def pyttsx3_to_file (avail : Bool) (run : BackendRun) (filename : String) : FileExecResult :=
  if avail = false then
    { result := .error (.engineNotAvailableError "pyttsx3 not available"), temp := false,
      written := none }
  else
    match run with
    | .throws e =>
      { result := .error (.ttsException ("pyttsx3 file generation failed: " ++ e.message)),
        temp := unlinkIfExists (stateAfterRun run), written := none }
    | .writes none =>
      { result := .error (.ttsException ("pyttsx3 file generation failed: "
          ++ "pyttsx3 failed to generate audio file - file is empty or missing")),
        temp := unlinkIfExists (stateAfterRun run), written := none }
    | .writes (some content) =>
      if content = [] then
        { result := .error (.ttsException ("pyttsx3 file generation failed: "
            ++ "pyttsx3 failed to generate audio file - file is empty or missing")),
          temp := unlinkIfExists (stateAfterRun run), written := none }
      else
        { result := .ok filename, temp := false, written := some content }

/-- Model of `playback.play_bytes`: write the bytes to a fresh temp file (so the state
entering the `try` block is "exists"), then run the mixer; the `finally`
block unlinks the temp file whether the mixer run returns or raises.  When
pygame is unavailable the raise precedes temp creation. -/
def play_bytes (pygameAvail : Bool) (mix : Option TTSError) : ExecResult Unit :=
  if pygameAvail = false then
    { result := .error (.engineNotAvailableError "pygame not available for audio playback"),
      temp := false }
  else
    let tempCreated := true
    match mix with
    | some e => { result := .error e, temp := unlinkIfExists tempCreated }
    | none => { result := .ok (), temp := unlinkIfExists tempCreated }

/-- Legacy `tts_lib.pyttsx3_to_bytes`: same temp-file protocol as the modular
adapter but with no existence/size verification — whatever the backend left
in the file is read back and returned as success; only a missing file (the
`open` raising) lands in the `except` branch.  The `finally` block unlinks
the temp file if it still exists. -/
def tts_lib_pyttsx3_to_bytes (avail : Bool) (run : BackendRun) : ExecResult (List Nat) :=
  if avail = false then
    { result := .error (.engineNotAvailableError "pyttsx3 not available"), temp := false }
  else
    let body : Except TTSError (List Nat) :=
      match run with
      | .throws e =>
        .error (.ttsException ("pyttsx3 bytes generation failed: " ++ e.message))
      | .writes none =>
        .error (.ttsException ("pyttsx3 bytes generation failed: " ++ "file not found"))
      | .writes (some content) => .ok content
    { result := body, temp := unlinkIfExists (stateAfterRun run) }

/-- Legacy `tts_lib.pyttsx3_to_file`: renames the temp file onto `filename`
with no verification, so an empty backend output becomes an empty output
file returned as success; the `except` clause unlinks a still-existing temp
file on raise. -/
def tts_lib_pyttsx3_to_file (avail : Bool) (run : BackendRun) (filename : String) :
    FileExecResult :=
  if avail = false then
    { result := .error (.engineNotAvailableError "pyttsx3 not available"), temp := false,
      written := none }
  else
    match run with
    | .throws e =>
      { result := .error (.ttsException ("pyttsx3 file generation failed: " ++ e.message)),
        temp := unlinkIfExists (stateAfterRun run), written := none }
    | .writes none =>
      { result := .error (.ttsException
          ("pyttsx3 file generation failed: " ++ "file not found")),
        temp := unlinkIfExists (stateAfterRun run), written := none }
    | .writes (some content) =>
      { result := .ok filename, temp := false, written := some content }

/-! ## Helper lemmas -/

theorem digitChar_isDigit (d : Nat) (h : d < 10) : (Char.ofNat (48 + d)).isDigit = true := by
  interval_cases d <;> decide

theorem natDecimal_all_digit (n : Nat) : ∀ c ∈ natDecimal n, c.isDigit = true := by
  induction n using Nat.strong_induction_on with
  | _ n ih =>
    rw [natDecimal]
    split
    · intro c hc
      rw [List.mem_singleton] at hc
      subst hc
      exact digitChar_isDigit n (by omega)
    · intro c hc
      rcases List.mem_append.mp hc with hc | hc
      · exact ih (n / 10) (Nat.div_lt_self (by omega) (by omega)) c hc
      · rw [List.mem_singleton] at hc
        subst hc
        exact digitChar_isDigit (n % 10) (Nat.mod_lt _ (by omega))

theorem natDecimal_length_le (k : Nat) :
    ∀ n, n < 10 ^ k → 0 < k → (natDecimal n).length ≤ k := by
  induction k with
  | zero => intro n _ hk; omega
  | succ k ih =>
    intro n hn _
    rw [natDecimal]
    split
    · simp
    · rename_i hge
      have hk : 0 < k := by
        by_contra hk0
        have : k = 0 := by omega
        subst this
        simp at hn
        omega
      have hdiv : n / 10 < 10 ^ k := by
        rw [Nat.div_lt_iff_lt_mul (by omega)]
        calc n < 10 ^ (k + 1) := hn
          _ = 10 ^ k * 10 := by ring
      have := ih (n / 10) hdiv hk
      simp [List.length_append]
      omega

theorem zfill_length (w : Nat) (l : List Char) (h : l.length ≤ w) :
    (zfill w l).length = w := by
  simp [zfill]
  omega

theorem zfill_all_digit (w : Nat) (l : List Char) (h : ∀ c ∈ l, c.isDigit = true) :
    ∀ c ∈ zfill w l, c.isDigit = true := by
  intro c hc
  rcases List.mem_append.mp hc with hc | hc
  · rw [List.eq_of_mem_replicate hc]
    decide
  · exact h c hc

theorem strfField_length (w n : Nat) (h : n < 10 ^ w) (hw : 0 < w) :
    (strfField w n).length = w :=
  zfill_length w _ (natDecimal_length_le w n h hw)

theorem strfField_all_digit (w n : Nat) : ∀ c ∈ strfField w n, c.isDigit = true :=
  zfill_all_digit w _ (natDecimal_all_digit n)

theorem strftimeYmdHMS_pattern (t : DateTime)
    (hy : t.year < 10000) (hmo : t.month < 100) (hd : t.day < 100)
    (hh : t.hour < 100) (hmi : t.minute < 100) (hs : t.second < 100) :
    timestampPattern (strftimeYmdHMS t) := by
  refine ⟨strfField 4 t.year ++ strfField 2 t.month ++ strfField 2 t.day,
    strfField 2 t.hour ++ strfField 2 t.minute ++ strfField 2 t.second, ?_, ?_, ?_, ?_, ?_⟩
  · show (strfField 4 t.year ++ strfField 2 t.month ++ strfField 2 t.day
      ++ ['_'] ++ strfField 2 t.hour ++ strfField 2 t.minute ++ strfField 2 t.second) = _
    simp
  · simp [List.length_append, strfField_length 4 t.year (by omega) (by omega),
      strfField_length 2 t.month (by omega) (by omega),
      strfField_length 2 t.day (by omega) (by omega)]
  · simp [List.length_append, strfField_length 2 t.hour (by omega) (by omega),
      strfField_length 2 t.minute (by omega) (by omega),
      strfField_length 2 t.second (by omega) (by omega)]
  · intro c hc
    rcases List.mem_append.mp hc with hc | hc
    · rcases List.mem_append.mp hc with hc | hc
      · exact strfField_all_digit 4 t.year c hc
      · exact strfField_all_digit 2 t.month c hc
    · exact strfField_all_digit 2 t.day c hc
  · intro c hc
    rcases List.mem_append.mp hc with hc | hc
    · rcases List.mem_append.mp hc with hc | hc
      · exact strfField_all_digit 2 t.hour c hc
      · exact strfField_all_digit 2 t.minute c hc
    · exact strfField_all_digit 2 t.second c hc

/-! ## Claims -/

/-- C1: for every text input that is blank after trimming, or whose post-trim
length exceeds 5000 characters, `text_to_speech_bytes` fails with a
`ValidationError` and no engine adapter function is invoked (the adapter call
trace is empty). -/
theorem claim1_blank_or_long_text_rejected_no_adapter
    (avail : EngineAvailability) (adapters : AdapterBehavior)
    (text engine language : String)
    (h : pyStrip text = "" ∨ 5000 < (pyStrip text).length) :
    (∃ msg, (text_to_speech_bytesTraced avail adapters text engine language).1
        = .error (.validationError msg))
    ∧ (text_to_speech_bytesTraced avail adapters text engine language).2 = [] := by
  have hv : ∃ msg, validate_text text = .error (.validationError msg) := by
    rcases h with h | h
    · exact ⟨"Text cannot be empty", by simp [validate_text, h]⟩
    · have hne : ¬(pyStrip text = "") := by
        intro he
        rw [he] at h
        simp at h
      exact ⟨"Text too long (max 5000 characters)", by simp [validate_text, hne, h]⟩
  obtain ⟨msg, hmsg⟩ := hv
  constructor
  · exact ⟨msg, by simp [text_to_speech_bytesTraced, hmsg]⟩
  · simp [text_to_speech_bytesTraced, hmsg]

theorem claim1_witness :
    (pyStrip "   " = "" ∨ 5000 < (pyStrip "   ").length)
    ∧ ((∃ msg, (text_to_speech_bytesTraced ⟨true, true⟩ constAdapters "   " "gtts" "en").1
          = .error (.validationError msg))
      ∧ (text_to_speech_bytesTraced ⟨true, true⟩ constAdapters "   " "gtts" "en").2 = []) :=
  ⟨Or.inl (by decide),
   claim1_blank_or_long_text_rejected_no_adapter ⟨true, true⟩ constAdapters "   " "gtts" "en"
     (Or.inl (by decide))⟩

/-- C2: language validation fails with `ValidationError` unless the argument
has exactly 2 characters, and on every 2-character string it returns the
lowercased string. -/
theorem claim2_language_two_chars_lowercased (language : String) :
    (language.length ≠ 2 →
      validate_language language
        = .error (.validationError "Language must be a 2-character code"))
    ∧ (language.length = 2 → validate_language language = .ok (pyLower language)) := by
  constructor <;> intro h <;> simp [validate_language, h]

theorem claim2_witness :
    "EN".length = 2 ∧ validate_language "EN" = .ok "en" := by
  refine ⟨by decide, ?_⟩
  have h := (claim2_language_two_chars_lowercased "EN").2 (by decide)
  rw [h]
  decide

/-- C3: an engine id outside the registry fails with the unknown-engine
`ValidationError` with an empty adapter trace; a registered engine whose
availability flag is off fails with `EngineNotAvailableError`, again with an
empty adapter trace, provided text validation passed. -/
theorem claim3_unknown_or_unavailable_engine
    (avail : EngineAvailability) (adapters : AdapterBehavior)
    (text engine language vt : String)
    (htext : validate_text text = .ok vt) :
    ((engine ≠ "pyttsx3" ∧ engine ≠ "gtts") →
      (text_to_speech_bytesTraced avail adapters text engine language).1
          = .error (.validationError "Engine must be pyttsx3 or gtts")
        ∧ (text_to_speech_bytesTraced avail adapters text engine language).2 = [])
    ∧ ((engine = "pyttsx3" ∧ avail.pyttsx3 = false) →
      (text_to_speech_bytesTraced avail adapters text engine language).1
          = .error (.engineNotAvailableError "pyttsx3 engine not available")
        ∧ (text_to_speech_bytesTraced avail adapters text engine language).2 = [])
    ∧ ((engine = "gtts" ∧ avail.gtts = false) →
      (text_to_speech_bytesTraced avail adapters text engine language).1
          = .error (.engineNotAvailableError "gTTS engine not available")
        ∧ (text_to_speech_bytesTraced avail adapters text engine language).2 = []) := by
  refine ⟨fun h => ?_, fun h => ?_, fun h => ?_⟩
  · have he : validate_engine avail engine
        = .error (.validationError "Engine must be pyttsx3 or gtts") := by
      simp [validate_engine, h.1, h.2]
    constructor <;> simp [text_to_speech_bytesTraced, htext, he]
  · have he : validate_engine avail engine
        = .error (.engineNotAvailableError "pyttsx3 engine not available") := by
      simp [validate_engine, h.1, h.2]
    constructor <;> simp [text_to_speech_bytesTraced, htext, he]
  · have he : validate_engine avail engine
        = .error (.engineNotAvailableError "gTTS engine not available") := by
      obtain ⟨h1, h2⟩ := h
      subst h1
      simp [validate_engine, h2]
    constructor <;> simp [text_to_speech_bytesTraced, htext, he]

theorem claim3_witness :
    ((text_to_speech_bytesTraced ⟨true, true⟩ constAdapters "hi" "espeak" "en").1
        = .error (.validationError "Engine must be pyttsx3 or gtts")
      ∧ (text_to_speech_bytesTraced ⟨true, true⟩ constAdapters "hi" "espeak" "en").2 = [])
    ∧ ((text_to_speech_bytesTraced ⟨false, true⟩ constAdapters "hi" "pyttsx3" "en").1
        = .error (.engineNotAvailableError "pyttsx3 engine not available")
      ∧ (text_to_speech_bytesTraced ⟨false, true⟩ constAdapters "hi" "pyttsx3" "en").2 = []) :=
  ⟨(claim3_unknown_or_unavailable_engine ⟨true, true⟩ constAdapters "hi" "espeak" "en" "hi"
      (by decide)).1 ⟨by decide, by decide⟩,
   (claim3_unknown_or_unavailable_engine ⟨false, true⟩ constAdapters "hi" "pyttsx3" "en" "hi"
      (by decide)).2.1 ⟨rfl, rfl⟩⟩

/-- C10: language validation checks only the length — every 2-character
string, including non-alphabetic ones, is accepted and lowercased. -/
theorem claim10_any_two_char_string_accepted (s : String) (h : s.length = 2) :
    validate_language s = .ok (pyLower s) := by
  simp [validate_language, h]

theorem claim10_witness :
    validate_language "12" = .ok "12" ∧ validate_language "@#" = .ok "@#" := by
  constructor
  · have h := claim10_any_two_char_string_accepted "12" (by decide)
    rw [h]
    decide
  · have h := claim10_any_two_char_string_accepted "@#" (by decide)
    rw [h]
    decide

/-- C4: each neural adapter's model resolution falls back to the documented
default/multilingual model on unmapped language codes instead of failing, and
returns the mapped model on mapped codes; Piper's path resolution always
yields a path for the resolved voice name. -/
theorem claim4_model_resolution_fallbacks (lang : String) (fs : FileSystem)
    (projectDir homeDir : String) :
    (silero_language_models.lookup lang = none →
      get_model_info lang = ("v3_en", "en_0", 48000))
    ∧ (∀ m, silero_language_models.lookup lang = some m → get_model_info lang = m)
    ∧ (piper_voice_models.lookup lang = none →
      piper_voice_name lang = "en_US-lessac-medium")
    ∧ (∀ v, piper_voice_models.lookup lang = some v → piper_voice_name lang = v)
    ∧ (∃ d, get_voice_path fs projectDir homeDir lang
        = d ++ "/" ++ piper_voice_name lang ++ ".onnx")
    ∧ (coqui_language_models.lookup lang = none →
      get_model_name lang = coqui_multilingual_model)
    ∧ (∀ m, coqui_language_models.lookup lang = some m → get_model_name lang = m) := by
  refine ⟨fun h => ?_, fun m h => ?_, fun h => ?_, fun v h => ?_, ?_, fun h => ?_, fun m h => ?_⟩
  · simp [get_model_info, h]
  · simp [get_model_info, h]
  · simp [piper_voice_name, h]
  · simp [piper_voice_name, h]
  · rcases hfind : List.find?
        (fun d => fs.pathExists (d ++ "/" ++ piper_voice_name lang ++ ".onnx"))
        [projectDir ++ "/.pipertts/voices", homeDir ++ "/.local/share/piper/voices",
          "/usr/share/piper/voices", "./voices"] with _ | d
    · exact ⟨projectDir ++ "/.pipertts/voices", by simp [get_voice_path, hfind]⟩
    · exact ⟨d, by simp [get_voice_path, hfind]⟩
  · unfold get_model_name
    split
    · rfl
    · simp [h]
  · have hmem : lang = "en" ∨ lang = "es" ∨ lang = "fr" ∨ lang = "de" := by
      by_contra hcon
      push_neg at hcon
      obtain ⟨h1, h2, h3, h4⟩ := hcon
      simp only [coqui_language_models, List.lookup] at h
      rw [beq_eq_false_iff_ne.mpr h1, beq_eq_false_iff_ne.mpr h2,
        beq_eq_false_iff_ne.mpr h3, beq_eq_false_iff_ne.mpr h4] at h
      simp at h
    have hnotspecial : lang ∉ ["ru", "uk", "zh", "ja", "ko", "ar", "hi"] := by
      rcases hmem with h' | h' | h' | h' <;> subst h' <;> decide
    unfold get_model_name
    rw [if_neg hnotspecial, h]
    rfl

theorem claim4_witness :
    get_model_info "pt" = ("v3_en", "en_0", 48000)
    ∧ get_model_info "ru" = ("v3_1_ru", "aidar", 48000)
    ∧ piper_voice_name "pt" = "en_US-lessac-medium"
    ∧ (∃ d, get_voice_path emptyFS "proj" "home" "pt"
        = d ++ "/" ++ piper_voice_name "pt" ++ ".onnx")
    ∧ get_model_name "pt" = coqui_multilingual_model
    ∧ get_model_name "de" = "tts_models/de/thorsten/tacotron2-DDC" :=
  ⟨(claim4_model_resolution_fallbacks "pt" emptyFS "proj" "home").1 (by decide),
   (claim4_model_resolution_fallbacks "ru" emptyFS "proj" "home").2.1 _ (by decide),
   (claim4_model_resolution_fallbacks "pt" emptyFS "proj" "home").2.2.1 (by decide),
   (claim4_model_resolution_fallbacks "pt" emptyFS "proj" "home").2.2.2.2.1,
   (claim4_model_resolution_fallbacks "pt" emptyFS "proj" "home").2.2.2.2.2.1 (by decide),
   (claim4_model_resolution_fallbacks "de" emptyFS "proj" "home").2.2.2.2.2.2 _ (by decide)⟩

/-- C5: auto-generated filenames have the shape
`<optional-prefix_><YYYYMMDD_HHMMSS>.<ext>` — with empty prefix and extension
`mp3` the name is the timestamp core (eight digits, `_`, six digits) followed
by `.mp3`; with prefix `demo` it is `demo_` followed by the same; and the
default-filename extension is `mp3` for the network engine (`gtts`) and
`wav` otherwise. -/
theorem claim5_timestamp_filename_shape (now : DateTime) (e : String)
    (hy : now.year < 10000) (hmo : now.month < 100) (hd : now.day < 100)
    (hh : now.hour < 100) (hmi : now.minute < 100) (hs : now.second < 100)
    (he : e ≠ "gtts") :
    generate_timestamp_filename now "" "mp3" = strftimeYmdHMS now ++ ".mp3"
    ∧ generate_timestamp_filename now "demo" "mp3" = "demo_" ++ strftimeYmdHMS now ++ ".mp3"
    ∧ timestampPattern (strftimeYmdHMS now)
    ∧ cliDefaultExtension "gtts" = "mp3" ∧ cliDefaultExtension e = "wav"
    ∧ apiDefaultExtension "gtts" = "mp3" ∧ apiDefaultExtension "pyttsx3" = "wav" := by
  refine ⟨?_, ?_, strftimeYmdHMS_pattern now hy hmo hd hh hmi hs, rfl, ?_, rfl, rfl⟩
  · simp [generate_timestamp_filename, String.append_assoc]
  · simp [generate_timestamp_filename, String.append_assoc]
  · simp [cliDefaultExtension, he]

theorem claim5_witness :
    generate_timestamp_filename ⟨2024, 3, 14, 15, 9, 26⟩ "" "mp3"
        = strftimeYmdHMS ⟨2024, 3, 14, 15, 9, 26⟩ ++ ".mp3"
    ∧ generate_timestamp_filename ⟨2024, 3, 14, 15, 9, 26⟩ "demo" "mp3"
        = "demo_" ++ strftimeYmdHMS ⟨2024, 3, 14, 15, 9, 26⟩ ++ ".mp3"
    ∧ timestampPattern (strftimeYmdHMS ⟨2024, 3, 14, 15, 9, 26⟩)
    ∧ cliDefaultExtension "gtts" = "mp3" ∧ cliDefaultExtension "pyttsx3" = "wav"
    ∧ apiDefaultExtension "gtts" = "mp3" ∧ apiDefaultExtension "pyttsx3" = "wav" :=
  claim5_timestamp_filename_shape ⟨2024, 3, 14, 15, 9, 26⟩ "pyttsx3"
    (by decide) (by decide) (by decide) (by decide) (by decide) (by decide) (by decide)

/-- C6: the operations that route audio through a temporary file —
offline synthesis to bytes (`pyttsx3.to_bytes`) and playback from bytes
(`playback.play_bytes`) — leave no temporary file on disk on any exit path:
success, verification failure, or backend/mixer exception. -/
theorem claim6_temp_file_removed_on_every_path (avail : Bool) (run : BackendRun)
    (pygameAvail : Bool) (mix : Option TTSError) :
    (pyttsx3_to_bytes avail run).temp = false
    ∧ (play_bytes pygameAvail mix).temp = false := by
  constructor
  · unfold pyttsx3_to_bytes
    split
    · rfl
    · cases run with
      | throws e => simp [unlinkIfExists, stateAfterRun]
      | writes content => cases content <;> simp [unlinkIfExists, stateAfterRun]
  · unfold play_bytes
    split
    · rfl
    · cases mix <;> simp [unlinkIfExists]

/-- C7 counterexample: the legacy `tts_lib.py` pyttsx3 adapters perform no
output verification — when the backend leaves the temp file empty,
`tts_lib.pyttsx3_to_bytes` returns empty bytes as success and
`tts_lib.pyttsx3_to_file` renames the empty file into place and returns
success, contradicting the claim for synthesis calls routed through
`tts_lib`. -/
theorem claim7_counterexample :
    (tts_lib_pyttsx3_to_bytes true (.writes (some []))).result = .ok []
    ∧ (tts_lib_pyttsx3_to_file true (.writes (some [])) "out.wav").result = .ok "out.wav"
    ∧ (tts_lib_pyttsx3_to_file true (.writes (some [])) "out.wav").written = some [] :=
  ⟨rfl, rfl, rfl⟩

/-- C7 (amended): the modular pyttsx3 adapter (`libs/pyttsx3.py`) verifies
that the backend produced a non-empty output file: when the file is missing
or has zero size, `to_bytes` and `to_file` fail with a `TTSException`, and
a successful return never carries empty bytes or an empty output file. -/
theorem claim7_modular_adapter_verifies_nonempty
    (avail : Bool) (run : BackendRun) (filename : String) :
    (avail = true → (run = .writes none ∨ run = .writes (some [])) →
      (∃ m, (pyttsx3_to_bytes avail run).result = .error (.ttsException m))
      ∧ (∃ m, (pyttsx3_to_file avail run filename).result = .error (.ttsException m)))
    ∧ (∀ bs, (pyttsx3_to_bytes avail run).result = .ok bs → bs ≠ [])
    ∧ (∀ f, (pyttsx3_to_file avail run filename).result = .ok f →
      ∃ c, (pyttsx3_to_file avail run filename).written = some c ∧ c ≠ []) := by
  refine ⟨fun ha hrun => ?_, fun bs hbs => ?_, fun f hf => ?_⟩
  · subst ha
    rcases hrun with h | h <;> subst h
    · exact ⟨⟨"pyttsx3 bytes generation failed: "
          ++ "pyttsx3 failed to generate audio file - file is empty or missing", rfl⟩,
        ⟨"pyttsx3 file generation failed: "
          ++ "pyttsx3 failed to generate audio file - file is empty or missing", rfl⟩⟩
    · exact ⟨⟨"pyttsx3 bytes generation failed: "
          ++ "pyttsx3 failed to generate audio file - file is empty or missing", rfl⟩,
        ⟨"pyttsx3 file generation failed: "
          ++ "pyttsx3 failed to generate audio file - file is empty or missing", rfl⟩⟩
  · cases avail with
    | false => simp [pyttsx3_to_bytes] at hbs
    | true =>
      cases run with
      | throws e => simp [pyttsx3_to_bytes] at hbs
      | writes content =>
        cases content with
        | none => simp [pyttsx3_to_bytes] at hbs
        | some c =>
          by_cases hc : c = []
          · simp [pyttsx3_to_bytes, hc] at hbs
          · simp [pyttsx3_to_bytes, hc] at hbs
            rw [← hbs]
            exact hc
  · cases avail with
    | false => simp [pyttsx3_to_file] at hf
    | true =>
      cases run with
      | throws e => simp [pyttsx3_to_file] at hf
      | writes content =>
        cases content with
        | none => simp [pyttsx3_to_file] at hf
        | some c =>
          by_cases hc : c = []
          · simp [pyttsx3_to_file, hc] at hf
          · exact ⟨c, by simp [pyttsx3_to_file, hc], hc⟩

theorem claim7_amended_witness :
    (∃ m, (pyttsx3_to_bytes true (.writes (some []))).result = .error (.ttsException m))
    ∧ (∃ m, (pyttsx3_to_file true (.writes (some [])) "out.wav").result
        = .error (.ttsException m)) :=
  (claim7_modular_adapter_verifies_nonempty true (.writes (some [])) "out.wav").1
    rfl (Or.inr rfl)

/-- C8: when no sink is specified (`--file` absent, `--play` not required),
the CLI resolves to play-only: playback is on and no output file path is
produced. -/
theorem claim8_no_sink_defaults_to_play_only (args : CliArgs) (config : CliConfig)
    (engine : String) (fs : FileSystem) (now : DateTime) (h : args.file = none) :
    determine_playback_setting args = true
    ∧ (determine_output_filename args config engine fs now).1 = none := by
  constructor
  · unfold determine_playback_setting
    split
    · rfl
    · simp [h]
  · simp [determine_output_filename, h]

theorem claim8_witness :
    determine_playback_setting ⟨none, false, none⟩ = true
    ∧ (determine_output_filename ⟨none, false, none⟩ ⟨"audio"⟩ "gtts" emptyFS
        ⟨2024, 3, 14, 15, 9, 26⟩).1 = none :=
  claim8_no_sink_defaults_to_play_only ⟨none, false, none⟩ ⟨"audio"⟩ "gtts" emptyFS
    ⟨2024, 3, 14, 15, 9, 26⟩ rfl

/-- C9: File-sink path resolution follows exactly three shapes — an empty
target yields a timestamp name inside the resolved audio directory (created);
a target ending in `/` or naming an existing directory yields a timestamp
name inside that directory (created); any other target is used verbatim,
with its parent directory created when it is not `"."`. -/
theorem claim9_file_target_three_shapes (args : CliArgs) (config : CliConfig)
    (engine : String) (fs : FileSystem) (now : DateTime) (f : String)
    (hf : args.file = some f) :
    (f = "" →
      determine_output_filename args config engine fs now
        = (some (os_path_join (resolvedAudioDir args config)
            (generate_timestamp_filename now "" (cliDefaultExtension engine))),
          [resolvedAudioDir args config]))
    ∧ (f ≠ "" → (pyEndsWith f "/" = true ∨ (fs.pathExists f = true ∧ fs.isDir f = true)) →
      determine_output_filename args config engine fs now
        = (some (os_path_join f
            (generate_timestamp_filename now "" (cliDefaultExtension engine))), [f]))
    ∧ (f ≠ "" → pyEndsWith f "/" = false → (fs.pathExists f = false ∨ fs.isDir f = false) →
      determine_output_filename args config engine fs now
        = (some f, if pathParent f ≠ "." then [pathParent f] else [])) := by
  refine ⟨fun h => ?_, fun h hdir => ?_, fun h hslash hnodir => ?_⟩
  · subst h
    simp [determine_output_filename, hf]
  · have hcond : (pyEndsWith f "/" || (fs.pathExists f && fs.isDir f)) = true := by
      rcases hdir with h' | ⟨h1, h2⟩ <;> simp [*]
    simp [determine_output_filename, hf, h, hcond]
  · have hcond : (pyEndsWith f "/" || (fs.pathExists f && fs.isDir f)) = false := by
      rcases hnodir with h' | h' <;> simp [hslash, h']
    by_cases hp : pathParent f ≠ "."
    · simp [determine_output_filename, hf, h, hcond, hp]
    · simp [determine_output_filename, hf, h, hcond, hp]

theorem claim9_witness :
    (determine_output_filename ⟨some "", false, none⟩ ⟨"audio"⟩ "gtts" emptyFS
        ⟨2024, 3, 14, 15, 9, 26⟩
      = (some (os_path_join (resolvedAudioDir ⟨some "", false, none⟩ ⟨"audio"⟩)
          (generate_timestamp_filename ⟨2024, 3, 14, 15, 9, 26⟩ "" (cliDefaultExtension "gtts"))),
        [resolvedAudioDir ⟨some "", false, none⟩ ⟨"audio"⟩]))
    ∧ (determine_output_filename ⟨some "clips/", false, none⟩ ⟨"audio"⟩ "gtts" emptyFS
        ⟨2024, 3, 14, 15, 9, 26⟩
      = (some (os_path_join "clips/"
          (generate_timestamp_filename ⟨2024, 3, 14, 15, 9, 26⟩ "" (cliDefaultExtension "gtts"))),
        ["clips/"]))
    ∧ (determine_output_filename ⟨some "out/take1.mp3", false, none⟩ ⟨"audio"⟩ "gtts" emptyFS
        ⟨2024, 3, 14, 15, 9, 26⟩
      = (some "out/take1.mp3",
        if pathParent "out/take1.mp3" ≠ "." then [pathParent "out/take1.mp3"] else [])) :=
  ⟨(claim9_file_target_three_shapes ⟨some "", false, none⟩ ⟨"audio"⟩ "gtts" emptyFS
      ⟨2024, 3, 14, 15, 9, 26⟩ "" rfl).1 rfl,
   (claim9_file_target_three_shapes ⟨some "clips/", false, none⟩ ⟨"audio"⟩ "gtts" emptyFS
      ⟨2024, 3, 14, 15, 9, 26⟩ "clips/" rfl).2.1 (by decide) (Or.inl (by decide)),
   (claim9_file_target_three_shapes ⟨some "out/take1.mp3", false, none⟩ ⟨"audio"⟩ "gtts" emptyFS
      ⟨2024, 3, 14, 15, 9, 26⟩ "out/take1.mp3" rfl).2.2 (by decide) (by decide)
      (Or.inl rfl)⟩

end TTS
